import Mathlib

/-!
Shallow embedding of `src/notepad_automator.py`.

Python strings are modelled as `List Char` (ASCII behaviour of `strip`,
`upper`, `lower`, `in`, `startswith`).  Fallible library calls (HTTP,
pywinauto, file I/O) are modelled by explicit `Except Unit` results or
boolean success flags supplied through environment records; busy-poll
loops over `app.windows()` are modelled as recursion over the finite
list of window-title snapshots observed at the successive poll
iterations (an empty remainder of the list models expiry of the
timeout).  The observable effects of `main` are modelled as a trace of
events (automation attempts and fallback file writes).
-/

namespace NotepadAutomator

/-- A Python string, as its list of characters. -/
abbrev PyStr := List Char

/-- Python `str.lower()` (ASCII). -/
def pyLower (s : PyStr) : PyStr := s.map Char.toLower

/-- Python `str.upper()` (ASCII). -/
def pyUpper (s : PyStr) : PyStr := s.map Char.toUpper

/-- Python `str.strip()` (ASCII whitespace): drop whitespace from both ends. -/
def pyStrip (s : PyStr) : PyStr :=
  ((s.dropWhile Char.isWhitespace).reverse.dropWhile Char.isWhitespace).reverse

/-- Python `needle in hay` on strings: contiguous substring containment. -/
def pyIn (needle : PyStr) : PyStr → Bool
  | [] => needle.isPrefixOf []
  | c :: rest => needle.isPrefixOf (c :: rest) || pyIn needle rest

/-- Python `s.startswith(pre)`. -/
def pyStartsWith (pre s : PyStr) : Bool := List.isPrefixOf pre s

/-- Rendering `str(x)` of the value found under key `"id"`: `None` prints as
`"None"`, an integer prints in decimal. -/
def pyStrOfId : Option Int → PyStr
  | none => "None".toList
  | some n => (toString n).toList

/-- One fetched record (`{"id": ..., "title": ..., "body": ...}`); each
field may be absent from the dict, hence the `Option`s (`post.get(...)`). -/
structure Post where
  id : Option Int
  title : Option PyStr
  body : Option PyStr
deriving DecidableEq

/-- The module-level constant `POST_COUNT = 10`. -/
def POST_COUNT : Nat := 10

/-- Model of `compose_post_text(post)`: title and body are fetched with
default `""` and stripped; the five lines are joined with `"\n"`. -/
def compose_post_text (post : Post) : PyStr :=
  let title := pyStrip (post.title.getD [])
  let body := pyStrip (post.body.getD [])
  List.intercalate ['\n']
    [pyUpper title, [], body, [],
      "(source: jsonplaceholder.typicode.com/posts/".toList
        ++ pyStrOfId post.id ++ ")".toList]

/-- Model of `fetch_posts(n)`.  The HTTP GET, `raise_for_status()` and `r.json()`
are modelled by the `resp` argument: `.error` if the request raised, the
status was non-success, or the body failed to parse; `.ok posts` for a
successfully parsed list.  On success the list is truncated to `n`. -/
def fetch_posts (resp : Except Unit (List Post)) (n : Nat) :
    Except Unit (List Post) :=
  match resp with
  | .error e => .error e
  | .ok posts => .ok (posts.take n)

/-- The Save-As-dialog detection condition of `save_via_notepad` applied to
a lowered title `t`, with Python operator precedence (`and` binds tighter
than `or`):
`"save as" in t or "save as" == t.strip() or "save" == t.strip() and "save as" in t`. -/
def saveAsCond (t : PyStr) : Bool :=
  pyIn "save as".toList t || "save as".toList == pyStrip t
    || ("save".toList == pyStrip t && pyIn "save as".toList t)

/-- The overwrite-confirmation detection condition applied to a lowered
title, with Python precedence:
`"confirm" in title and "save" in title or title.strip().startswith("confirm")`. -/
def confirmCond (t : PyStr) : Bool :=
  (pyIn "confirm".toList t && pyIn "save".toList t)
    || pyStartsWith "confirm".toList (pyStrip t)

/-- One pass of `for w in app.windows()` in the Save-As poll: the first
window whose lowered title satisfies `saveAsCond`. -/
def findDlgInSnapshot (ws : List PyStr) : Option PyStr :=
  ws.find? (fun w => saveAsCond (pyLower w))

/-- The Save-As busy-poll loop (`while time.time() - start < SAVE_TIMEOUT`):
each element of `snaps` is the window-title list seen at one poll
iteration; exhausting the list models the timeout expiring. -/
def findSaveDlg : List (List PyStr) → Option PyStr
  | [] => none
  | ws :: rest =>
    match findDlgInSnapshot ws with
    | some w => some w
    | none => findSaveDlg rest

/-- The overwrite-confirmation busy-poll loop (`while time.time() - start < 3`):
on the first snapshot containing a matching window the handler runs (all
of its exceptions are swallowed by the nested `try`/`except` blocks) and
the function returns `True`; if the list is exhausted (timeout) it also
returns `True` ("If no confirmation dialog, assume saved"). -/
def confirmLoop : List (List PyStr) → Bool
  | [] => true
  | ws :: rest =>
    if ws.any (fun w => confirmCond (pyLower w)) then true else confirmLoop rest

/-- Outcomes of the fallible pywinauto calls made by `save_via_notepad`,
plus the window snapshots its two poll loops observe.  A `false` flag
means the corresponding call raises an exception. -/
structure SaveEnv where
  /-- whether `window.menu_select("File->Save As...")` succeeds. -/
  menuOk : Bool
  /-- the fallback `keyboard.send_keys("^s")` succeeds. -/
  ctrlSOk : Bool
  /-- successive `app.windows()` title lists during the Save-As poll. -/
  snapshots : List (List PyStr)
  /-- whether `save_dlg.set_focus()` succeeds. -/
  dlgFocusOk : Bool
  /-- whether `fname_edit.set_edit_text(full_path)` succeeds. -/
  editSetOk : Bool
  /-- the second `save_dlg.set_focus()` (fallback path) succeeds. -/
  refocusOk : Bool
  /-- the fallback `keyboard.send_keys(full_path, ...)` succeeds. -/
  typePathOk : Bool
  /-- whether `keyboard.send_keys("{ENTER}")` succeeds. -/
  enterOk : Bool
  /-- successive `app.windows()` title lists during the confirmation poll. -/
  confirmSnapshots : List (List PyStr)
deriving DecidableEq

/-- Body of `save_via_notepad` inside its outer `try`: an uncaught
exception of a library call propagates as `.error ()` and skips the rest
of the body.  The first test models `try: menu_select except: send Ctrl+S`,
where a failure of the fallback `send_keys` is uncaught; the later tests
model `save_dlg.set_focus()`, then
`try: set_edit_text except: set_focus; send_keys(full_path)` (both
fallback calls uncaught), then `send_keys("{ENTER}")`. -/
def saveBody (env : SaveEnv) : Except Unit Bool :=
  if !env.menuOk && !env.ctrlSOk then .error ()
  else match findSaveDlg env.snapshots with
    | none =>
      -- "Save As dialog not detected within timeout."
      .ok false
    | some _ =>
      if !env.dlgFocusOk then .error ()
      else if !env.editSetOk && !(env.refocusOk && env.typePathOk) then .error ()
      else if !env.enterOk then .error ()
      else .ok (confirmLoop env.confirmSnapshots)

/-- Model of `save_via_notepad(app, window, full_path)`: the outer
`try ... except: return False` around `saveBody`. -/
def save_via_notepad (env : SaveEnv) : Except Unit Bool :=
  match saveBody env with
  | .ok b => .ok b
  | .error _ => .ok false

/-- Windows `os.path.join(dir, name)`. -/
def joinPath (dir name : PyStr) : PyStr := dir ++ '\\' :: name

/-- The filename token `p.get("id", "unknown")` rendered by the f-string. -/
def pidToken : Option Int → PyStr
  | none => "unknown".toList
  | some n => (toString n).toList

/-- The filename `f"post {pid}.txt"`. -/
def postFilename (p : Post) : PyStr :=
  "post ".toList ++ pidToken p.id ++ ".txt".toList

/-- The set of directories that exist, for `os.makedirs`. -/
abbrev DirFS := List PyStr

/-- Model of `os.makedirs(path, exist_ok=ok)`: with `exist_ok=False` an existing
directory raises `FileExistsError`; with `exist_ok=True` it never raises. -/
def makedirs (fs : DirFS) (path : PyStr) (exist_ok : Bool) :
    Except Unit DirFS :=
  if fs.contains path then
    if exist_ok then .ok fs else .error ()
  else .ok (path :: fs)

/-- The path `~/Desktop/tjm-project` built by `desktop_tjm_dir`. -/
def tjmPath (home : PyStr) : PyStr :=
  joinPath (joinPath home "Desktop".toList) "tjm-project".toList

/-- Model of `desktop_tjm_dir()`: join the path and
`os.makedirs(out, exist_ok=True)`, returning the path. -/
def desktop_tjm_dir (home : PyStr) (fs : DirFS) :
    Except Unit (PyStr × DirFS) :=
  match makedirs fs (tjmPath home) true with
  | .error e => .error e
  | .ok fs2 => .ok (tjmPath home, fs2)

/-- Contents of the flat-file filesystem, for `write_fallback_file`. -/
abbrev FileFS := PyStr → Option PyStr

/-- Model of `open(full_path, "w").write(content)`: create or truncate, then
write. -/
def fsWrite (fs : FileFS) (path content : PyStr) : FileFS :=
  fun q => if q = path then some content else fs q

/-- Model of `write_fallback_file(full_path, content)`: `ioOk` is whether the
underlying `open`/`write` succeeds; on failure the exception is caught,
logged, and the filesystem is unchanged. -/
def write_fallback_file (ioOk : Bool) (fs : FileFS) (path content : PyStr) :
    FileFS :=
  if ioOk then fsWrite fs path content else fs

/-- Observable effects of `main`'s per-record loop. -/
inductive Event
  /-- the automation sequence (start Notepad, find window, type, save) is
  attempted for this record. -/
  | autoAttempt (p : Post)
  /-- an invocation `write_fallback_file(path, content)`. -/
  | fallbackWrite (path : PyStr) (content : PyStr)
deriving DecidableEq

/-- One iteration of `main`'s `for p in posts` loop.  `auto p` abstracts
the `try` block: `.error ()` if any automation step raised (start, window
lookup, typing), `.ok b` if `save_via_notepad` returned `b`; in the
`except` branch `saved_ok` is set to `False`.  If `saved_ok` is falsy the
fallback write is invoked with the record's path and composed content. -/
def processPost (outDir : PyStr) (auto : Post → Except Unit Bool)
    (p : Post) : List Event :=
  let full_path := joinPath outDir (postFilename p)
  let content := compose_post_text p
  let saved_ok := match auto p with
    | .ok b => b
    | .error _ => false
  Event.autoAttempt p ::
    (if saved_ok then [] else [Event.fallbackWrite full_path content])

/-- Model of `main()` as an event trace: ensure the output directory, fetch; on a
fetch failure log and return (empty trace); otherwise run the loop body
on each of the (at most `POST_COUNT`) fetched posts. -/
def main (home : PyStr) (fetchResp : Except Unit (List Post))
    (auto : Post → Except Unit Bool) : List Event :=
  match fetch_posts fetchResp POST_COUNT with
  | .error _ => []
  | .ok posts => posts.flatMap (processPost (tjmPath home) auto)

/-- Number of records whose automation sequence is attempted in a trace. -/
def countAuto (evs : List Event) : Nat :=
  (evs.filter fun e => match e with
    | .autoAttempt _ => true
    | _ => false).length

/-- The fallback-write events of a trace, in order. -/
def writesOf (evs : List Event) : List Event :=
  evs.filter fun e => match e with
    | .fallbackWrite _ _ => true
    | _ => false

/-! ## Helper lemmas -/

theorem isPrefixOf_append_self (m r : PyStr) :
    m.isPrefixOf (m ++ r) = true := by
  induction m with
  | nil => simp [List.isPrefixOf]
  | cons c m ih => simp [List.isPrefixOf, ih]

theorem pyIn_of_isPrefixOf (m h : PyStr) (hp : m.isPrefixOf h = true) :
    pyIn m h = true := by
  cases h with
  | nil => simpa [pyIn] using hp
  | cons c rest => simp [pyIn, hp]

theorem pyIn_append (l m r : PyStr) : pyIn m (l ++ (m ++ r)) = true := by
  induction l with
  | nil => exact pyIn_of_isPrefixOf _ _ (isPrefixOf_append_self m r)
  | cons c l ih => simp [pyIn, ih]

theorem pyStrip_parts (t : PyStr) : ∃ l r, t = l ++ (pyStrip t ++ r) := by
  obtain ⟨l, hl⟩ := List.dropWhile_suffix (l := t) Char.isWhitespace
  obtain ⟨r, hr⟩ := List.dropWhile_suffix
    (l := (t.dropWhile Char.isWhitespace).reverse) Char.isWhitespace
  refine ⟨l, r.reverse, ?_⟩
  have hu : t.dropWhile Char.isWhitespace = pyStrip t ++ r.reverse := by
    have h2 := congrArg List.reverse hr
    simpa [pyStrip] using h2.symm
  conv_lhs => rw [← hl]
  rw [hu]

theorem pyIn_pyStrip (t : PyStr) : pyIn (pyStrip t) t = true := by
  obtain ⟨l, r, hlr⟩ := pyStrip_parts t
  calc pyIn (pyStrip t) t
      = pyIn (pyStrip t) (l ++ (pyStrip t ++ r)) := by rw [← hlr]
    _ = true := pyIn_append l (pyStrip t) r

theorem confirmLoop_eq_true (snaps : List (List PyStr)) :
    confirmLoop snaps = true := by
  induction snaps with
  | nil => rfl
  | cons ws rest ih => simp [confirmLoop, ih]

theorem save_success_helper (env : SaveEnv)
    (hm : (env.menuOk || env.ctrlSOk) = true)
    (hd : ∃ w, findSaveDlg env.snapshots = some w)
    (hf : env.dlgFocusOk = true)
    (he : (env.editSetOk || (env.refocusOk && env.typePathOk)) = true)
    (hen : env.enterOk = true) :
    save_via_notepad env = .ok true := by
  obtain ⟨w, hw⟩ := hd
  have h1 : (!env.menuOk && !env.ctrlSOk) = false := by
    rw [← Bool.not_or, hm]; rfl
  have h2 : (!env.editSetOk && !(env.refocusOk && env.typePathOk)) = false := by
    rw [← Bool.not_or, he]; rfl
  unfold save_via_notepad saveBody
  rw [h1, hw, hf, h2, hen]
  simp [confirmLoop_eq_true]

theorem countAuto_append (xs ys : List Event) :
    countAuto (xs ++ ys) = countAuto xs + countAuto ys := by
  simp [countAuto, List.filter_append]

theorem countAuto_processPost (d : PyStr) (a : Post → Except Unit Bool)
    (p : Post) : countAuto (processPost d a p) = 1 := by
  unfold processPost countAuto
  cases ha : a p with
  | ok b => cases b <;> simp [ha]
  | error e => simp [ha]

theorem countAuto_flatMap (d : PyStr) (a : Post → Except Unit Bool)
    (l : List Post) :
    countAuto (l.flatMap (processPost d a)) = l.length := by
  induction l with
  | nil => rfl
  | cons p rest ih =>
    simp only [List.flatMap_cons, countAuto_append, countAuto_processPost, ih,
      List.length_cons]
    omega

/-! ## Claim theorems -/

/-- C1 (counterexample): the claim as stated is false on the code.  For the
record with id 1, title `" a "` and body `" xyz "`, the claimed output —
the uppercased title line, a blank line, the body, a blank line and the
footer, joined by single newlines — would be
`" A \n\n xyz \n\n(source: jsonplaceholder.typicode.com/posts/1)"`, but
`compose_post_text` strips surrounding whitespace from the title and the
body and actually returns
`"A\n\nxyz\n\n(source: jsonplaceholder.typicode.com/posts/1)"`. -/
theorem compose_post_text_counterexample :
    compose_post_text ⟨some 1, some " a ".toList, some " xyz ".toList⟩ ≠
      " A \n\n xyz \n\n(source: jsonplaceholder.typicode.com/posts/1)".toList ∧
    compose_post_text ⟨some 1, some " a ".toList, some " xyz ".toList⟩ =
      "A\n\nxyz\n\n(source: jsonplaceholder.typicode.com/posts/1)".toList := by
  constructor <;> decide

/-- C1 (amended): for every record dict with fields id, title, body,
`compose_post_text` returns the uppercased whitespace-stripped title
line, a blank line, the whitespace-stripped body, a blank line, and a
footer line containing the id, joined by single newlines (it is a total
pure function, so it never fails and has no side effects); in particular
for id=1, title="abc", body="xyz" the result is exactly
`"ABC\n\nxyz\n\n(source: jsonplaceholder.typicode.com/posts/1)"`. -/
theorem compose_post_text_amended_spec :
    (∀ (i : Int) (t b : PyStr),
      compose_post_text ⟨some i, some t, some b⟩ =
        pyUpper (pyStrip t) ++ '\n' :: '\n' :: (pyStrip b ++ '\n' :: '\n' ::
          ("(source: jsonplaceholder.typicode.com/posts/".toList
            ++ (toString i).toList ++ ")".toList))) ∧
    compose_post_text ⟨some 1, some "abc".toList, some "xyz".toList⟩ =
      "ABC\n\nxyz\n\n(source: jsonplaceholder.typicode.com/posts/1)".toList := by
  constructor
  · intro i t b
    simp [compose_post_text, List.intercalate, List.intersperse, pyStrOfId]
  · decide

/-- C2: if fetching the records fails (`fetch_posts` models network error,
non-success HTTP status and unparseable body all as `.error`), `main`
logs the error and returns early: the event trace is empty, so zero
fallback files are written and no automation step is attempted for any
record, whatever the per-record automation behaviour would have been. -/
theorem main_fetch_failure_no_effects :
    ∀ (home : PyStr) (auto : Post → Except Unit Bool),
      main home (.error ()) auto = [] ∧
      writesOf (main home (.error ()) auto) = [] ∧
      countAuto (main home (.error ()) auto) = 0 := by
  intro home auto
  exact ⟨rfl, rfl, rfl⟩

/-- C3: for every environment of library-call outcomes and window
snapshots, `save_via_notepad` never propagates an exception to its caller
(the result is always `.ok` of a boolean); it is `False` on any internal
failure — menu invocation failing on both paths, Save-As-dialog timeout,
or a dialog-control error (focus, filename-field on both paths, Enter) —
and `True` on a confirmed save (dialog found and every subsequent step
succeeded). -/
theorem save_via_notepad_boolean_contract :
    ∀ env : SaveEnv,
      (∃ b, save_via_notepad env = .ok b) ∧
      (env.menuOk = false → env.ctrlSOk = false →
        save_via_notepad env = .ok false) ∧
      (findSaveDlg env.snapshots = none → save_via_notepad env = .ok false) ∧
      (env.dlgFocusOk = false → save_via_notepad env = .ok false) ∧
      (env.editSetOk = false → (env.refocusOk && env.typePathOk) = false →
        save_via_notepad env = .ok false) ∧
      (env.enterOk = false → save_via_notepad env = .ok false) ∧
      ((env.menuOk || env.ctrlSOk) = true →
        ∀ w, findSaveDlg env.snapshots = some w →
        env.dlgFocusOk = true →
        (env.editSetOk || (env.refocusOk && env.typePathOk)) = true →
        env.enterOk = true → save_via_notepad env = .ok true) := by
  intro env
  refine ⟨?_, ?_, ?_, ?_, ?_, ?_, ?_⟩
  · cases hb : saveBody env with
    | ok b => exact ⟨b, by simp [save_via_notepad, hb]⟩
    | error e => exact ⟨false, by simp [save_via_notepad, hb]⟩
  · intro hm hc
    unfold save_via_notepad saveBody
    rw [hm, hc]
    rfl
  · intro hd
    unfold save_via_notepad saveBody
    rw [hd]
    cases hmc : (!env.menuOk && !env.ctrlSOk) <;> rfl
  · intro hf
    unfold save_via_notepad saveBody
    rw [hf]
    cases hmc : (!env.menuOk && !env.ctrlSOk)
    · cases hd : findSaveDlg env.snapshots <;> rfl
    · rfl
  · intro he hr
    unfold save_via_notepad saveBody
    rw [he, hr]
    cases hmc : (!env.menuOk && !env.ctrlSOk)
    · cases hd : findSaveDlg env.snapshots
      · rfl
      · cases hf : env.dlgFocusOk <;> rfl
    · rfl
  · intro hen
    unfold save_via_notepad saveBody
    rw [hen]
    cases hmc : (!env.menuOk && !env.ctrlSOk)
    · cases hd : findSaveDlg env.snapshots
      · rfl
      · cases hf : env.dlgFocusOk
        · rfl
        · cases hee : (!env.editSetOk && !(env.refocusOk && env.typePathOk)) <;>
            rfl
    · rfl
  · intro hm w hw hf he hen
    exact save_success_helper env hm ⟨w, hw⟩ hf he hen

/-- Witness for C3 at a concrete environment: all calls succeed and a
window titled "Save As" appears, so the result is `.ok true`. -/
theorem save_via_notepad_boolean_contract_witness :
    save_via_notepad
      ⟨true, true, [["Save As".toList]], true, true, true, true, true, []⟩ =
      .ok true :=
  (save_via_notepad_boolean_contract
      ⟨true, true, [["Save As".toList]], true, true, true, true, true,
        []⟩).2.2.2.2.2.2
    rfl "Save As".toList (by rfl) rfl rfl rfl

/-- C4: for every destination path and content string, after
`write_fallback_file` (with the underlying file I/O succeeding,
`ioOk = true`) the file at that path exists and reading it back yields
exactly the content string, for every prior filesystem — in particular
regardless of whether a file with different content previously existed
at that path. -/
theorem write_fallback_file_roundtrip :
    ∀ (fs : FileFS) (path content : PyStr),
      (write_fallback_file true fs path content path).isSome = true ∧
      write_fallback_file true fs path content path = some content := by
  intro fs path content
  refine ⟨?_, ?_⟩ <;> simp [write_fallback_file, fsWrite]

/-- C5: for every n and every successfully parsed API response holding a
list of M records, `fetch_posts` returns the first min(M, n) records of
that list in order (`posts.take n`, whose length is `min M n` and whose
entries agree pointwise with the response); and when M < POST_COUNT,
`main` attempts automation for exactly M records, not POST_COUNT. -/
theorem fetch_posts_truncates :
    ∀ (posts : List Post) (n : Nat) (home : PyStr)
      (auto : Post → Except Unit Bool),
      fetch_posts (.ok posts) n = .ok (posts.take n) ∧
      (posts.take n).length = min posts.length n ∧
      (∀ i (h1 : i < (posts.take n).length) (h2 : i < posts.length),
        (posts.take n).get ⟨i, h1⟩ = posts.get ⟨i, h2⟩) ∧
      (posts.length < POST_COUNT →
        countAuto (main home (.ok posts) auto) = posts.length) := by
  intro posts n home auto
  refine ⟨rfl, ?_, ?_, ?_⟩
  · rw [List.length_take, Nat.min_comm]
  · intro i h1 h2
    simp [List.getElem_take]
  · intro hlt
    have hm : main home (.ok posts) auto =
        (posts.take POST_COUNT).flatMap (processPost (tjmPath home) auto) := rfl
    rw [hm, List.take_of_length_le (Nat.le_of_lt hlt)]
    exact countAuto_flatMap _ _ _

/-- Witness for C5 at a two-record response with n = 5: the first
retained record is the first response record, and `main` processes
exactly 2 records. -/
theorem fetch_posts_truncates_witness :
    (([⟨some 1, none, none⟩, ⟨some 2, none, none⟩] : List Post).take 5).get
        ⟨0, by decide⟩ =
      ([⟨some 1, none, none⟩, ⟨some 2, none, none⟩] : List Post).get
        ⟨0, by decide⟩ ∧
    countAuto (main "h".toList
      (.ok [⟨some 1, none, none⟩, ⟨some 2, none, none⟩])
      (fun _ => .ok true)) = 2 :=
  ⟨(fetch_posts_truncates [⟨some 1, none, none⟩, ⟨some 2, none, none⟩] 5
      "h".toList (fun _ => .ok true)).2.2.1 0 (by decide) (by decide),
   (fetch_posts_truncates [⟨some 1, none, none⟩, ⟨some 2, none, none⟩] 5
      "h".toList (fun _ => .ok true)).2.2.2 (by decide)⟩

/-- C6: `main`'s trace on a successful fetch is the concatenation of the
per-record loop bodies (`processPost`); and for every record in that
loop, if the automation sequence reports failure (any step raised,
`.error ()`, or `save_via_notepad` returned `False`, `.ok false`) then the
fallback writer is invoked exactly once for that record, with the
destination path derived from the record's id and content equal to
`compose_post_text` of that record; if automation reports success
(`.ok true`), the fallback writer is not invoked for that record. -/
theorem fallback_write_iff_automation_failed :
    ∀ (home : PyStr) (posts : List Post) (auto : Post → Except Unit Bool),
      main home (.ok posts) auto =
        (posts.take POST_COUNT).flatMap (processPost (tjmPath home) auto) ∧
      ∀ (outDir : PyStr) (p : Post),
        ((auto p = .error () ∨ auto p = .ok false) →
          writesOf (processPost outDir auto p) =
            [Event.fallbackWrite (joinPath outDir (postFilename p))
              (compose_post_text p)]) ∧
        (auto p = .ok true → writesOf (processPost outDir auto p) = []) := by
  intro home posts auto
  refine ⟨rfl, ?_⟩
  intro outDir p
  constructor
  · intro hfail
    unfold processPost writesOf
    rcases hfail with h | h <;> rw [h] <;> rfl
  · intro hok
    unfold processPost writesOf
    rw [hok]
    rfl

/-- Witness for C6 at a concrete record whose automation returns `False`:
the trace contains exactly one fallback write, with the derived path and
the composed content. -/
theorem fallback_write_iff_automation_failed_witness :
    writesOf (processPost [] (fun _ => .ok false)
        ⟨some 1, some "a".toList, some "b".toList⟩) =
      [Event.fallbackWrite
        (joinPath [] (postFilename ⟨some 1, some "a".toList, some "b".toList⟩))
        (compose_post_text ⟨some 1, some "a".toList, some "b".toList⟩)] :=
  ((fallback_write_iff_automation_failed "h".toList [] (fun _ => .ok false)).2
    [] ⟨some 1, some "a".toList, some "b".toList⟩).1 (Or.inr rfl)

/-- C7: the Save-As-dialog detection condition of `save_via_notepad`,
`"save as" in t or "save as" == t.strip() or "save" == t.strip() and "save as" in t`,
under Python operator precedence (`and` binds tighter than `or`) is
logically equivalent to the single test `"save as" in t`: the second and
third disjuncts never accept a title the first rejects; and a window
titled exactly "Save" (lowered to "save") is never matched. -/
theorem saveAsCond_equiv_substring :
    (∀ t : PyStr, saveAsCond t = pyIn "save as".toList t) ∧
    saveAsCond (pyLower "Save".toList) = false := by
  refine ⟨fun t => ?_, by decide⟩
  cases hp : pyIn "save as".toList t with
  | true =>
    unfold saveAsCond
    rw [hp]
    simp
  | false =>
    have hne : ("save as".toList == pyStrip t) = false := by
      cases hb : ("save as".toList == pyStrip t) with
      | false => rfl
      | true =>
        have he : pyStrip t = "save as".toList := (eq_of_beq hb).symm
        have h2 := pyIn_pyStrip t
        rw [he, hp] at h2
        exact Bool.noConfusion h2
    unfold saveAsCond
    rw [hp, hne]
    simp

/-- C8: `desktop_tjm_dir` is idempotent: starting from any filesystem,
calling it twice in succession raises no error on either call
(`exist_ok=True`), returns the same path `~/Desktop/tjm-project` both
times, and the directory exists afterwards. -/
theorem desktop_tjm_dir_idempotent :
    ∀ (home : PyStr) (fs : DirFS), ∃ p fs1 fs2,
      desktop_tjm_dir home fs = .ok (p, fs1) ∧
      desktop_tjm_dir home fs1 = .ok (p, fs2) ∧
      p = tjmPath home ∧
      fs2.contains p = true := by
  intro home fs
  cases h : fs.contains (tjmPath home) with
  | true =>
    have h1 : desktop_tjm_dir home fs = .ok (tjmPath home, fs) := by
      unfold desktop_tjm_dir makedirs
      simp only [h]
      rfl
    exact ⟨tjmPath home, fs, fs, h1, h1, rfl, h⟩
  | false =>
    have hmem : (tjmPath home :: fs).contains (tjmPath home) = true := by simp
    have h1 : desktop_tjm_dir home fs =
        .ok (tjmPath home, tjmPath home :: fs) := by
      unfold desktop_tjm_dir makedirs
      simp only [h]
      rfl
    have h2 : desktop_tjm_dir home (tjmPath home :: fs) =
        .ok (tjmPath home, tjmPath home :: fs) := by
      unfold desktop_tjm_dir makedirs
      simp only [hmem]
      rfl
    exact ⟨tjmPath home, tjmPath home :: fs, tjmPath home :: fs, h1, h2, rfl,
      hmem⟩

/-- C9: for a record lacking the "id" key, the filename uses the default
token "unknown" (`p.get("id", "unknown")`) while the footer of the same
file renders the default `None` (`post.get("id")`): the identifier token
in the filename and the one in the footer differ. -/
theorem missing_id_filename_footer_mismatch :
    postFilename ⟨none, some "hello".toList, some "world".toList⟩ =
      "post unknown.txt".toList ∧
    compose_post_text ⟨none, some "hello".toList, some "world".toList⟩ =
      "HELLO\n\nworld\n\n(source: jsonplaceholder.typicode.com/posts/None)".toList ∧
    pidToken none ≠ pyStrOfId none := by
  refine ⟨by decide, by decide, by decide⟩

/-- C10: once a Save As dialog has been detected and the filename
submitted (focus, filename field and Enter all succeeded),
`save_via_notepad` returns `True` even when no overwrite-confirmation
dialog appears within the polling window (no snapshot contains a window
matching the confirmation condition): a `True` result asserts only that
the dialog sequence completed without exception, not that the file was
verified to exist on disk. -/
theorem save_true_without_confirm_dialog :
    ∀ (env : SaveEnv) (w : PyStr),
      findSaveDlg env.snapshots = some w →
      (env.menuOk || env.ctrlSOk) = true →
      env.dlgFocusOk = true →
      (env.editSetOk || (env.refocusOk && env.typePathOk)) = true →
      env.enterOk = true →
      (∀ snap ∈ env.confirmSnapshots, ∀ t ∈ snap,
        confirmCond (pyLower t) = false) →
      save_via_notepad env = .ok true := by
  intro env w hw hm hf he hen _hnone
  exact save_success_helper env hm ⟨w, hw⟩ hf he hen

/-- Witness for C10 at a concrete environment: the Save As dialog is
found, every control step succeeds, and the confirmation poll only ever
sees an unrelated "Untitled - Notepad" window; the result is `.ok true`. -/
theorem save_true_without_confirm_dialog_witness :
    save_via_notepad
      ⟨true, true, [["Save As".toList]], true, true, true, true, true,
        [["Untitled - Notepad".toList]]⟩ = .ok true :=
  save_true_without_confirm_dialog
    ⟨true, true, [["Save As".toList]], true, true, true, true, true,
      [["Untitled - Notepad".toList]]⟩
    "Save As".toList (by rfl) rfl rfl rfl rfl (by decide)

end NotepadAutomator
